import Mathlib

/-!
# cpp_oob.cpp: an out-of-bounds write through a raw pointer

A shallow embedding of `src/filc/cpp_oob.cpp`.  The program prints a line,
constructs `Buffer buffer(10)`, takes `ptr = buffer.get()`, prints a second
line, executes `ptr[4096] = 42`, prints a third line and returns 0.

The store `ptr[4096] = 42` lies outside the 10-element allocation, where C++
gives no meaning to it.  The embedding therefore defines every in-bounds
access itself and hands an out-of-bounds store to a `Platform`, which either
reports a `Fault` (the process stops there) or returns the heap with which
execution goes on.  Two platforms are given: `Platform.checked`, on which
every such store traps, and `Platform.flat`, a flat address space in which
the store lands silently when the target cell is mapped.

Two more steps can stop a run.  `new int[n]` throws when the request is too
large for the language or for the platform, and nothing catches it.
`delete[]` of a pointer the program does not hold from `new[]` is an invalid
release, on which the run aborts.
-/

namespace Filc

/-- A `volatile int*`: the allocation it points into and the element offset
inside that allocation. -/
structure Ptr where
  block : Nat
  off : Nat
deriving DecidableEq

/-- One `int` of storage; `none` is the indeterminate value `new int[n]`
leaves behind. -/
abbrev Cell := Option Int

/-- The free store.  `blocks[i]` is allocation `i`: its cells while it is
live, `none` once it has been released.  `stray` records, as
(block, element index, value), the stores that landed outside their
allocation. -/
structure Heap where
  blocks : List (Option (List Cell))
  stray : List (Nat × Nat × Int)
deriving DecidableEq

/-- Why a run stopped. -/
inductive Fault where
  | bounds (p : Ptr) (index : Nat)
  | segv (p : Ptr) (index : Nat)
  | badAlloc (n : Nat)
  | badDelete (p : Ptr)
deriving DecidableEq

/-- What the program does, in the order it does it. -/
inductive Event where
  | out (line : String)
  | alloc (block : Nat) (n : Nat)
  | store (p : Ptr) (index : Nat) (value : Int)
  | free (block : Nat)
deriving DecidableEq

/-- Program state: the events so far and the free store. -/
structure World where
  trace : List Event
  heap : Heap
deriving DecidableEq

/-- The state at program start over a given free store: nothing has
happened yet. -/
def World.start (h : Heap) : World := ⟨[], h⟩

/-- The empty free store. -/
def Heap.empty : Heap := ⟨[], []⟩

/-- The lines written to `std::cout`, oldest first. -/
def console : List Event → List String
  | [] => []
  | Event.out l :: es => l :: console es
  | _ :: es => console es

/-- Result of running a piece of the program: it finished with a value, or
it stopped with a fault.  Both keep the state reached. -/
inductive Outcome (α : Type) where
  | ok (a : α) (w : World)
  | fault (f : Fault) (w : World)
deriving DecidableEq

/-- The state in which a run ended. -/
def Outcome.world {α : Type} : Outcome α → World
  | Outcome.ok _ w => w
  | Outcome.fault _ w => w

/-- Whether a run stopped with a fault. -/
def Outcome.faulted {α : Type} : Outcome α → Bool
  | Outcome.ok _ _ => false
  | Outcome.fault _ _ => true

/-- A statement sequence: a function of the state. -/
def Run (α : Type) : Type := World → Outcome α

/-- Finishing with a value, the state untouched. -/
def Run.pure {α : Type} (a : α) : Run α := fun w => Outcome.ok a w

/-- Sequencing `m; f`.  There is no handler: a fault of `m` is the fault of
the whole. -/
def Run.bind {α β : Type} (m : Run α) (f : α → Run β) : Run β := fun w =>
  match m w with
  | Outcome.ok a w1 => f a w1
  | Outcome.fault e w1 => Outcome.fault e w1

instance : Monad Run where
  pure := Run.pure
  bind := Run.bind

/-- Size of an `int` in bytes on the LP64 targets the embedding fixes. -/
def intBytes : Nat := 4

/-- Largest size of an object in bytes, `PTRDIFF_MAX` on LP64. -/
def maxObjectBytes : Nat := 2 ^ 63 - 1

/-- What the program leaves to the platform.  `oobStore` is what an
out-of-bounds store does: a fault, or the free store with which execution
continues.  `maxNew` is the largest number of ints a single `new int[n]` is
served; a platform on which the program runs at all serves its one request,
of 10 ints. -/
structure Platform where
  oobStore : Heap → Ptr → Nat → Int → Except Fault Heap
  maxNew : Nat
  servesProgram : 10 ≤ maxNew

/-- Whether `new int[n]` succeeds: the array fits an object (otherwise
`std::bad_array_new_length`) and the platform serves the request (otherwise
`std::bad_alloc`).  A number that is no `size_t` fits no object. -/
def Platform.serves (plat : Platform) (n : Nat) : Bool :=
  decide (n * intBytes ≤ maxObjectBytes) && decide (n ≤ plat.maxNew)

/-- Checked indexing: every store outside the allocation traps.  Memory is
not the limit: every array that fits an object is served. -/
def Platform.checked : Platform :=
  { oobStore := fun _ p i _ => Except.error (Fault.bounds p i)
    maxNew := maxObjectBytes / intBytes
    servesProgram := by decide }

/-- A flat address space with `mapped` cells mapped from the start of each
allocation: a store outside the allocation lands silently when its cell is
mapped and raises a segmentation fault otherwise. -/
def Platform.flat (mapped : Nat) : Platform :=
  { oobStore := fun h p i v =>
      if p.off + i < mapped then
        Except.ok { h with stray := h.stray ++ [(p.block, p.off + i, v)] }
      else Except.error (Fault.segv p i)
    maxNew := max 10 mapped
    servesProgram := le_max_left 10 mapped }

/-- The cells of the live allocation a pointer points into. -/
def Heap.cells (h : Heap) (p : Ptr) : Option (List Cell) :=
  match h.blocks[p.block]? with
  | some (some cs) => some cs
  | _ => none

/-- Whether `p[i]` is an element of the live allocation `p` points into. -/
def Heap.inBounds (h : Heap) (p : Ptr) (i : Nat) : Bool :=
  match h.cells p with
  | some cs => decide (p.off + i < cs.length)
  | none => false

/-- Embeds `std::cout << line << std::endl`. -/
def println (line : String) : Run Unit := fun w =>
  Outcome.ok () { w with trace := w.trace ++ [Event.out line] }

/-- The free store after `p[i]` has been overwritten with `v`; unchanged
when `p` points into no live allocation. -/
def Heap.write (h : Heap) (p : Ptr) (i : Nat) (v : Int) : Heap :=
  match h.cells p with
  | some cs => { h with blocks := h.blocks.set p.block (some (cs.set (p.off + i) (some v))) }
  | none => h

/-- The free store after `new int[n]`: a fresh allocation of `n`
uninitialised cells, numbered `h.blocks.length`. -/
def Heap.alloc (h : Heap) (n : Nat) : Heap :=
  { h with blocks := h.blocks ++ [some (List.replicate n none)] }

/-- The free store after `delete[]` of allocation `block`. -/
def Heap.release (h : Heap) (block : Nat) : Heap :=
  { h with blocks := h.blocks.set block none }

/-- Embeds `p[i] = v` for a `volatile int* p`.  An element of the allocation
is overwritten; any other target is left to the platform. -/
def store (plat : Platform) (p : Ptr) (i : Nat) (v : Int) : Run Unit := fun w =>
  let tr := w.trace ++ [Event.store p i v]
  if w.heap.inBounds p i then
    Outcome.ok () ⟨tr, w.heap.write p i v⟩
  else
    match plat.oobStore w.heap p i v with
    | Except.ok h1 => Outcome.ok () ⟨tr, h1⟩
    | Except.error f => Outcome.fault f ⟨tr, w.heap⟩

/-- Embeds `class Buffer`: the private members `data` and `size`. -/
structure Buffer where
  data : Ptr
  size : Nat
deriving DecidableEq

/-- Embeds `Buffer(size_t size) : data(new int[size]), size(size) {}`.
When `new int[size]` succeeds the buffer holds a fresh allocation of `size`
uninitialised ints, `data` pointing at its first element.  When it throws,
no buffer comes to exist and, nothing catching the exception, the run stops
in the state it was in. -/
def Buffer.ctor (plat : Platform) (size : Nat) : Run Buffer := fun w =>
  if plat.serves size then
    let id := w.heap.blocks.length
    Outcome.ok ⟨⟨id, 0⟩, size⟩ ⟨w.trace ++ [Event.alloc id size], w.heap.alloc size⟩
  else
    Outcome.fault (Fault.badAlloc size) w

/-- Whether the program holds allocation `block`: among the events so far,
the last `new[]` or `delete[]` of that allocation is a `new[]`. -/
def holds (tr : List Event) (block : Nat) : Bool :=
  tr.foldl
    (fun held e =>
      match e with
      | Event.alloc b _ => if b = block then true else held
      | Event.free b => if b = block then false else held
      | _ => held)
    false

/-- Embeds `~Buffer() { delete[] data; }`.  The allocation is released when
`data` is the pointer `new[]` returned and the program still holds it.  Any
other `delete[]` (a second release, a pointer the program never got from
`new[]`, a pointer into the middle of an allocation) is an invalid release,
on which the run aborts. -/
def Buffer.dtor (b : Buffer) : Run Unit := fun w =>
  let tr := w.trace ++ [Event.free b.data.block]
  if holds w.trace b.data.block && decide (b.data.off = 0) then
    Outcome.ok () ⟨tr, w.heap.release b.data.block⟩
  else
    Outcome.fault (Fault.badDelete b.data) ⟨tr, w.heap⟩

/-- Embeds `volatile int* get() { return data; }`.  `get` is a non-const
member function, so it yields the pointer together with the object as the
call leaves it. -/
def Buffer.get (b : Buffer) : Ptr × Buffer := (b.data, b)

/-- The first line `demonstrate_oob` prints. -/
def msgTesting : String := "Testing C++ with memory safety violations..."

/-- The line printed just before the store. -/
def msgWriting : String := "Writing out of bounds at offset 4096..."

/-- The line printed after the store. -/
def msgNever : String := "This line should never execute!"

/-- Embeds `void demonstrate_oob()`.  The destructor of `buffer` runs when
the function body is left normally. -/
def demonstrate_oob (plat : Platform) : Run Unit := do
  println msgTesting
  let buffer ← Buffer.ctor plat 10
  let (ptr, buffer) := buffer.get
  println msgWriting
  store plat ptr 4096 42
  println msgNever
  buffer.dtor

/-- Embeds `int main()`. -/
def main (plat : Platform) : Run Int := do
  demonstrate_oob plat
  return 0

/-- The statements of `demonstrate_oob` that precede the store, yielding the
two locals `buffer` and `ptr`. -/
def upToWrite (plat : Platform) : Run (Buffer × Ptr) := do
  println msgTesting
  let buffer ← Buffer.ctor plat 10
  let (ptr, buffer) := buffer.get
  println msgWriting
  return (buffer, ptr)

/-- The decimal number spelled by the digits of a console line. -/
def announcedOffset (line : String) : Nat :=
  (line.toList.filter Char.isDigit).foldl (fun n c => 10 * n + (c.toNat - 48)) 0

/-- The events of `demonstrate_oob` before the store, over a free store
that held `k` allocations at program start. -/
def traceBeforeStore (k : Nat) : List Event :=
  [Event.out msgTesting, Event.alloc k 10, Event.out msgWriting]

/-- The events of `demonstrate_oob` up to and including the store. -/
def traceToStore (k : Nat) : List Event :=
  traceBeforeStore k ++ [Event.store ⟨k, 0⟩ 4096 42]

/-- The events of a run of `demonstrate_oob` that got past the store. -/
def traceFull (k : Nat) : List Event :=
  traceToStore k ++ [Event.out msgNever, Event.free k]

/-- The invariant of `Buffer`: `data` points at the first element of a live
allocation whose number of cells is the recorded `size`. -/
def Buffer.sizeMatches (h : Heap) (b : Buffer) : Prop :=
  b.data.off = 0 ∧ (h.cells b.data).map List.length = some b.size

/-! ## Shared lemmas -/

theorem cells_alloc (h : Heap) (n o : Nat) :
    (h.alloc n).cells ⟨h.blocks.length, o⟩ = some (List.replicate n none) := by
  simp [Heap.cells, Heap.alloc]

theorem inBounds_alloc (h : Heap) (n o i : Nat) :
    (h.alloc n).inBounds ⟨h.blocks.length, o⟩ i = decide (o + i < n) := by
  simp [Heap.inBounds, cells_alloc]

/-- Every platform serves the request of 10 ints. -/
theorem serves_ten (plat : Platform) : plat.serves 10 = true := by
  simp [Platform.serves, intBytes, maxObjectBytes, plat.servesProgram]

/-- A request that does not fit an object is served on no platform. -/
theorem serves_too_large (plat : Platform) (n : Nat) (h : maxObjectBytes < n * intBytes) :
    plat.serves n = false := by
  simp [Platform.serves, h]

/-- After its own `new[]` and before any `delete[]`, the program holds the
allocation of `demonstrate_oob`. -/
theorem holds_before_dtor (k : Nat) :
    holds (traceToStore k ++ [Event.out msgNever]) k = true := by
  simp [holds, traceToStore, traceBeforeStore]

/-- The statements before the store end in a known state, on every platform
and free store. -/
theorem upToWrite_eq (plat : Platform) (h0 : Heap) :
    upToWrite plat (World.start h0) =
      Outcome.ok (⟨⟨h0.blocks.length, 0⟩, 10⟩, ⟨h0.blocks.length, 0⟩)
        ⟨traceBeforeStore h0.blocks.length, h0.alloc 10⟩ := by
  simp only [upToWrite, bind, Run.bind, println, Buffer.ctor, serves_ten, World.start]
  rfl

/-- The function `demonstrate_oob` is its leading statements followed by
the store, the last print and the destructor. -/
theorem demonstrate_oob_split (plat : Platform) :
    demonstrate_oob plat =
      (do let (buffer, ptr) ← upToWrite plat
          store plat ptr 4096 42
          println msgNever
          buffer.dtor) := by
  funext w
  simp only [demonstrate_oob, upToWrite, bind, Run.bind, println, Buffer.ctor]
  cases plat.serves 10 <;> rfl

/-- The whole of `demonstrate_oob` in one equation: it runs up to the
store, and the platform decides the rest. -/
theorem demonstrate_oob_eq (plat : Platform) (h0 : Heap) :
    demonstrate_oob plat (World.start h0) =
      match plat.oobStore (h0.alloc 10) ⟨h0.blocks.length, 0⟩ 4096 42 with
      | Except.ok h1 =>
        Outcome.ok () ⟨traceFull h0.blocks.length, h1.release h0.blocks.length⟩
      | Except.error f => Outcome.fault f ⟨traceToStore h0.blocks.length, h0.alloc 10⟩ := by
  have hb : (h0.alloc 10).inBounds ⟨h0.blocks.length, 0⟩ 4096 = false := by
    rw [inBounds_alloc]; decide
  have hh : holds
      (traceBeforeStore h0.blocks.length ++ [Event.store ⟨h0.blocks.length, 0⟩ 4096 42] ++
        [Event.out msgNever]) h0.blocks.length = true := holds_before_dtor h0.blocks.length
  rw [demonstrate_oob_split]
  show Run.bind (upToWrite plat) _ (World.start h0) = _
  simp only [Run.bind, upToWrite_eq, bind, store, hb, println, Buffer.dtor]
  cases plat.oobStore (h0.alloc 10) ⟨h0.blocks.length, 0⟩ 4096 42 with
  | error f => rfl
  | ok h1 =>
    simp only [Bool.false_eq_true, if_false, hh, Bool.and_true, if_true]
    rfl

/-- The function `main` adds the exit status 0 to a normal return of
`demonstrate_oob` and nothing to a fault. -/
theorem main_eq (plat : Platform) (w0 : World) :
    main plat w0 =
      match demonstrate_oob plat w0 with
      | Outcome.ok _ w => Outcome.ok 0 w
      | Outcome.fault f w => Outcome.fault f w := by
  simp only [main, bind, Run.bind, pure, Run.pure]
  cases demonstrate_oob plat w0 <;> rfl

theorem console_traceToStore (k : Nat) :
    console (traceToStore k) = [msgTesting, msgWriting] := rfl

theorem console_traceFull (k : Nat) :
    console (traceFull k) = [msgTesting, msgWriting, msgNever] := rfl

/-- On a platform whose store faults, `main` stops at the store. -/
theorem main_of_error (plat : Platform) (h0 : Heap) (f : Fault)
    (h : plat.oobStore (h0.alloc 10) ⟨h0.blocks.length, 0⟩ 4096 42 = Except.error f) :
    main plat (World.start h0) =
      Outcome.fault f ⟨traceToStore h0.blocks.length, h0.alloc 10⟩ := by
  rw [main_eq, demonstrate_oob_eq, h]

/-- On a platform whose store lands, `main` runs to its end. -/
theorem main_of_ok (plat : Platform) (h0 h1 : Heap)
    (h : plat.oobStore (h0.alloc 10) ⟨h0.blocks.length, 0⟩ 4096 42 = Except.ok h1) :
    main plat (World.start h0) =
      Outcome.ok 0 ⟨traceFull h0.blocks.length, h1.release h0.blocks.length⟩ := by
  rw [main_eq, demonstrate_oob_eq, h]

/-! ## The claims -/

/-- C1: the write of `demonstrate_oob` is out of bounds.  Before the store
the buffer is `Buffer(10)`, `ptr` is what `get` returned and points at
offset 0 of an allocation of 10 cells, the indices in bounds through `ptr`
are exactly those below 10, and 4096 is not one of them.  Under checked
indexing the store `ptr[4096] = 42` gives the error result and leaves the
free store as it was, and so `demonstrate_oob` ends in that error. -/
theorem write_out_of_bounds (plat : Platform) (h0 : Heap) :
    ∃ buffer ptr w,
      upToWrite plat (World.start h0) = Outcome.ok (buffer, ptr) w ∧
      ptr = buffer.get.1 ∧ ptr.off = 0 ∧
      (w.heap.cells ptr).map List.length = some 10 ∧
      (∀ i, w.heap.inBounds ptr i = true ↔ i < 10) ∧
      w.heap.inBounds ptr 4096 = false ∧
      store Platform.checked ptr 4096 42 w =
        Outcome.fault (Fault.bounds ptr 4096)
          ⟨w.trace ++ [Event.store ptr 4096 42], w.heap⟩ ∧
      demonstrate_oob Platform.checked (World.start h0) =
        Outcome.fault (Fault.bounds ptr 4096)
          ⟨w.trace ++ [Event.store ptr 4096 42], w.heap⟩ := by
  refine ⟨_, _, _, upToWrite_eq plat h0, rfl, rfl, ?_, ?_, ?_, ?_, ?_⟩
  · simp [cells_alloc]
  · intro i
    simp [inBounds_alloc]
  · simp [inBounds_alloc]
  · simp [store, inBounds_alloc, Platform.checked]
  · rw [demonstrate_oob_eq]
    rfl

/-- C2, as stated, fails: on a flat address space in which the target cell
is mapped, the run of `main` does not fault and its console output contains
the line "This line should never execute!". -/
theorem final_message_printed_on_flat :
    (main (Platform.flat 33792) (World.start Heap.empty)).faulted = false ∧
      "This line should never execute!" ∈
        console (main (Platform.flat 33792) (World.start Heap.empty)).world.trace := by
  decide

/-- C2, amended: in every run of `main` that ends in a fault, the console
output does not contain the line "This line should never execute!", and the
print of that line is not among the events of the run. -/
theorem final_message_absent_on_fault (plat : Platform) (h0 : Heap) (f : Fault) (w : World)
    (h : main plat (World.start h0) = Outcome.fault f w) :
    "This line should never execute!" ∉ console w.trace ∧
      Event.out msgNever ∉ w.trace := by
  rw [main_eq, demonstrate_oob_eq] at h
  cases hp : plat.oobStore (h0.alloc 10) ⟨h0.blocks.length, 0⟩ 4096 42 with
  | ok h1 => rw [hp] at h; cases h
  | error e =>
    rw [hp] at h
    cases h
    constructor
    · show "This line should never execute!" ∉ console (traceToStore h0.blocks.length)
      rw [console_traceToStore]
      decide
    · simp [traceToStore, traceBeforeStore, msgNever, msgTesting, msgWriting]

/-- Witness for C2, amended: under checked indexing over the empty free
store the run of `main` ends in a fault. -/
theorem final_message_absent_on_fault_witness :
    main Platform.checked (World.start Heap.empty) =
        Outcome.fault (Fault.bounds ⟨0, 0⟩ 4096) ⟨traceToStore 0, Heap.empty.alloc 10⟩ ∧
      "This line should never execute!" ∉ console (traceToStore 0) ∧
      Event.out msgNever ∉ traceToStore 0 :=
  ⟨rfl, final_message_absent_on_fault Platform.checked Heap.empty _ _ rfl⟩

/-- C3: whatever the platform, the events of a run of `main` begin with the
events before the store, whose console output is exactly the two lines
"Testing C++ with memory safety violations..." and
"Writing out of bounds at offset 4096..." in this order; the store comes
next; and when the run faults nothing follows the store, so the console
output of the faulted run is exactly those two lines. -/
theorem output_before_write (plat : Platform) (h0 : Heap) :
    ∃ w rest,
      (upToWrite plat (World.start h0)).world = w ∧
      console w.trace =
        ["Testing C++ with memory safety violations...",
         "Writing out of bounds at offset 4096..."] ∧
      (∀ p i v, Event.store p i v ∉ w.trace) ∧
      (main plat (World.start h0)).world.trace =
        w.trace ++ Event.store ⟨h0.blocks.length, 0⟩ 4096 42 :: rest ∧
      rest =
        (if (main plat (World.start h0)).faulted then []
         else [Event.out msgNever, Event.free h0.blocks.length]) ∧
      ((main plat (World.start h0)).faulted = true →
        console (main plat (World.start h0)).world.trace =
          ["Testing C++ with memory safety violations...",
           "Writing out of bounds at offset 4096..."]) := by
  rw [upToWrite_eq]
  cases hp : plat.oobStore (h0.alloc 10) ⟨h0.blocks.length, 0⟩ 4096 42 with
  | ok h1 =>
    rw [main_of_ok plat h0 h1 hp]
    refine ⟨_, _, rfl, rfl, ?_, rfl, rfl, ?_⟩
    · simp [Outcome.world, traceBeforeStore]
    · simp [Outcome.faulted]
  | error e =>
    rw [main_of_error plat h0 e hp]
    refine ⟨_, _, rfl, rfl, ?_, rfl, rfl, ?_⟩
    · simp [Outcome.world, traceBeforeStore]
    · intro _
      rfl

/-- C4: nothing relates the nominal size of a buffer to the accesses made
through its pointer.  `get` returns the stored `data` pointer and leaves the
buffer as it was, whatever `size` holds, so two buffers with the same `data`
and different `size` give the same pointer; the destructor does the same for
both; and a store through the pointer is decided by the allocation alone:
an index inside the allocation is written and an index outside it goes to
the platform, on every platform and whatever `size` says. -/
theorem get_ignores_size (d : Ptr) (s1 s2 : Nat) :
    (Buffer.get ⟨d, s1⟩).1 = d ∧
      (Buffer.get ⟨d, s1⟩).2 = ⟨d, s1⟩ ∧
      (Buffer.get ⟨d, s1⟩).1 = (Buffer.get ⟨d, s2⟩).1 ∧
      (∀ w, Buffer.dtor ⟨d, s1⟩ w = Buffer.dtor ⟨d, s2⟩ w) ∧
      (∀ plat i v w, w.heap.inBounds d i = true →
        store plat (Buffer.get ⟨d, s1⟩).1 i v w =
          Outcome.ok () ⟨w.trace ++ [Event.store d i v], w.heap.write d i v⟩) ∧
      (∀ i v w, w.heap.inBounds d i = false →
        store Platform.checked (Buffer.get ⟨d, s1⟩).1 i v w =
          Outcome.fault (Fault.bounds d i) ⟨w.trace ++ [Event.store d i v], w.heap⟩) := by
  refine ⟨rfl, rfl, rfl, fun _ => rfl, ?_, ?_⟩
  · intro plat i v w hb
    simp [store, Buffer.get, hb]
  · intro i v w hb
    simp [store, Buffer.get, hb, Platform.checked]

/-- C6: there is no handler around the store.  When the platform answers
the out-of-bounds store with an error, `demonstrate_oob` and `main` both end
in that same error, in the state the store left: `main` returns no exit
status, the last event is the store, and the console holds the two lines
printed before it. -/
theorem fault_propagates (plat : Platform) (h0 : Heap) (f : Fault)
    (h : plat.oobStore (h0.alloc 10) ⟨h0.blocks.length, 0⟩ 4096 42 = Except.error f) :
    demonstrate_oob plat (World.start h0) =
        Outcome.fault f ⟨traceToStore h0.blocks.length, h0.alloc 10⟩ ∧
      main plat (World.start h0) =
        Outcome.fault f ⟨traceToStore h0.blocks.length, h0.alloc 10⟩ ∧
      (∀ status w, main plat (World.start h0) ≠ Outcome.ok status w) ∧
      (main plat (World.start h0)).world.trace.getLast? =
        some (Event.store ⟨h0.blocks.length, 0⟩ 4096 42) ∧
      console (main plat (World.start h0)).world.trace = [msgTesting, msgWriting] := by
  have hm := main_of_error plat h0 f h
  refine ⟨?_, hm, ?_, ?_, ?_⟩
  · rw [demonstrate_oob_eq, h]
  · intro status w hw
    rw [hm] at hw
    cases hw
  · rw [hm]
    rfl
  · rw [hm]
    rfl

/-- Witness for C6: checked indexing over the empty free store. -/
theorem fault_propagates_witness :
    Platform.checked.oobStore (Heap.empty.alloc 10) ⟨0, 0⟩ 4096 42 =
        Except.error (Fault.bounds ⟨0, 0⟩ 4096) ∧
      main Platform.checked (World.start Heap.empty) =
        Outcome.fault (Fault.bounds ⟨0, 0⟩ 4096) ⟨traceToStore 0, Heap.empty.alloc 10⟩ :=
  ⟨rfl, (fault_propagates Platform.checked Heap.empty (Fault.bounds ⟨0, 0⟩ 4096) rfl).2.1⟩

/-- C7: when the platform lets the out-of-bounds store land and execution
continue, `demonstrate_oob` returns normally having printed all three lines
in order, the last being "This line should never execute!", and `main`
returns exit status 0.  From any state, `main` returns 0 whenever
`demonstrate_oob` returns normally. -/
theorem silent_corruption_runs_to_end (plat : Platform) (h0 h1 : Heap)
    (h : plat.oobStore (h0.alloc 10) ⟨h0.blocks.length, 0⟩ 4096 42 = Except.ok h1) :
    demonstrate_oob plat (World.start h0) =
        Outcome.ok () ⟨traceFull h0.blocks.length, h1.release h0.blocks.length⟩ ∧
      console (demonstrate_oob plat (World.start h0)).world.trace =
        ["Testing C++ with memory safety violations...",
         "Writing out of bounds at offset 4096...",
         "This line should never execute!"] ∧
      main plat (World.start h0) =
        Outcome.ok 0 ⟨traceFull h0.blocks.length, h1.release h0.blocks.length⟩ ∧
      (∀ w0 w, demonstrate_oob plat w0 = Outcome.ok () w → main plat w0 = Outcome.ok 0 w) := by
  have hd : demonstrate_oob plat (World.start h0) =
      Outcome.ok () ⟨traceFull h0.blocks.length, h1.release h0.blocks.length⟩ := by
    rw [demonstrate_oob_eq, h]
  refine ⟨hd, ?_, main_of_ok plat h0 h1 h, ?_⟩
  · rw [hd]
    rfl
  · intro w0 w hw
    rw [main_eq, hw]

/-- Witness for C7: a flat address space with 33792 mapped cells, over the
empty free store; the store lands as a stray write of 42 at cell 4096. -/
theorem silent_corruption_runs_to_end_witness :
    (Platform.flat 33792).oobStore (Heap.empty.alloc 10) ⟨0, 0⟩ 4096 42 =
        Except.ok ⟨[some (List.replicate 10 none)], [(0, 4096, 42)]⟩ ∧
      main (Platform.flat 33792) (World.start Heap.empty) =
        Outcome.ok 0 ⟨traceFull 0, ⟨[none], [(0, 4096, 42)]⟩⟩ :=
  ⟨rfl, (silent_corruption_runs_to_end (Platform.flat 33792) Heap.empty
    ⟨[some (List.replicate 10 none)], [(0, 4096, 42)]⟩ rfl).2.2.1⟩

/-- C8, as stated, fails: for `n = 2^62` the array does not fit an object,
`new int[n]` throws, and `Buffer(n)` neither allocates nor records anything:
the run stops in the state it was in. -/
theorem ctor_throws_on_huge_size :
    Buffer.ctor Platform.checked (2 ^ 62) (World.start Heap.empty) =
      Outcome.fault (Fault.badAlloc (2 ^ 62)) (World.start Heap.empty) := by
  decide

/-- C8, amended: the recorded size of a `Buffer` is the number of elements
it allocated.  For every `n` for which `new int[n]` succeeds, from every
state, `Buffer(n)` returns a buffer with `size = n` whose `data` points at
the first cell of a fresh allocation of exactly `n` cells; `get` leaves the
buffer as it was; and on every platform `demonstrate_oob` reaches its store
holding a buffer of size 10 over an allocation of 10 cells, the rest of the
function running from that state. -/
theorem size_matches_allocation (plat : Platform) (n : Nat) (w : World) (h0 : Heap)
    (hnew : plat.serves n = true) :
    (∃ b w1, Buffer.ctor plat n w = Outcome.ok b w1 ∧ b.size = n ∧
        w1.heap.cells b.data = some (List.replicate n none) ∧
        w.heap.cells b.data = none ∧ w1.heap = w.heap.alloc n ∧
        w1.trace = w.trace ++ [Event.alloc b.data.block n] ∧
        b.sizeMatches w1.heap) ∧
      (∀ b : Buffer, b.get.1 = b.data ∧ b.get.2 = b) ∧
      (∀ (h : Heap) (b : Buffer), b.sizeMatches h → b.get.2.sizeMatches h) ∧
      (∃ buffer ptr w2, upToWrite plat (World.start h0) = Outcome.ok (buffer, ptr) w2 ∧
        buffer.size = 10 ∧ (w2.heap.cells buffer.data).map List.length = some 10 ∧
        buffer.sizeMatches w2.heap ∧
        demonstrate_oob plat (World.start h0) =
          (do store plat ptr 4096 42
              println msgNever
              buffer.dtor : Run Unit) w2) := by
  have hc : (w.heap.alloc n).cells ⟨w.heap.blocks.length, 0⟩ = some (List.replicate n none) :=
    cells_alloc w.heap n 0
  have hm : Buffer.sizeMatches (w.heap.alloc n) ⟨⟨w.heap.blocks.length, 0⟩, n⟩ := by
    refine ⟨rfl, ?_⟩
    show Option.map List.length ((w.heap.alloc n).cells ⟨w.heap.blocks.length, 0⟩) = some n
    simp [hc]
  refine ⟨?_, fun _ => ⟨rfl, rfl⟩, fun _ _ hb => hb, ?_⟩
  · refine ⟨⟨⟨w.heap.blocks.length, 0⟩, n⟩,
      ⟨w.trace ++ [Event.alloc w.heap.blocks.length n], w.heap.alloc n⟩, ?_, rfl, hc, ?_, rfl,
      rfl, hm⟩
    · simp [Buffer.ctor, hnew]
    · simp [Heap.cells]
  · refine ⟨_, _, _, upToWrite_eq plat h0, rfl, ?_, ⟨rfl, ?_⟩, ?_⟩
    · simp [cells_alloc]
    · show Option.map List.length ((h0.alloc 10).cells ⟨h0.blocks.length, 0⟩) = some 10
      simp [cells_alloc]
    · rw [demonstrate_oob_split]
      show Run.bind (upToWrite plat) _ (World.start h0) = _
      simp only [Run.bind, upToWrite_eq]

/-- Witness for C8, amended: under checked indexing `new int[10]` succeeds,
and `Buffer(10)` over the empty free store returns a buffer of size 10 over
block 0. -/
theorem size_matches_allocation_witness :
    Platform.checked.serves 10 = true ∧
      ∃ b w1, Buffer.ctor Platform.checked 10 (World.start Heap.empty) = Outcome.ok b w1 ∧
        b.size = 10 ∧ w1.heap.cells b.data = some (List.replicate 10 none) :=
  ⟨by decide,
    (size_matches_allocation Platform.checked 10 (World.start Heap.empty) Heap.empty
      (by decide)).1.imp fun _ hb => hb.imp fun _ hw => ⟨hw.1, hw.2.1, hw.2.2.1⟩⟩

/-- C9: the offset announced on the console is the offset written.  In
every run of `main` the print of "Writing out of bounds at offset 4096..."
is immediately followed by the store, the number that line spells is 4096,
the store goes through the pointer to element 0 of the allocation at
element index 4096, and the value stored is 42. -/
theorem announced_offset_is_written (plat : Platform) (h0 : Heap) :
    ∃ rest,
      (main plat (World.start h0)).world.trace =
        [Event.out msgTesting, Event.alloc h0.blocks.length 10] ++
          Event.out "Writing out of bounds at offset 4096..." ::
          Event.store ⟨h0.blocks.length, 0⟩
            (announcedOffset "Writing out of bounds at offset 4096...") 42 :: rest ∧
      announcedOffset "Writing out of bounds at offset 4096..." = 4096 := by
  cases hp : plat.oobStore (h0.alloc 10) ⟨h0.blocks.length, 0⟩ 4096 42 with
  | ok h1 =>
    rw [main_of_ok plat h0 h1 hp]
    exact ⟨_, rfl, rfl⟩
  | error e =>
    rw [main_of_error plat h0 e hp]
    exact ⟨_, rfl, rfl⟩

end Filc
